import Mathlib

/-!
Shallow embedding of the OAuth 2.1 authorization-server core of
`mcp_video_transcriber` (files `src/oauth/endpoints.py`, `src/oauth/auth.py`,
`src/config.py`, `src/database.py`), together with theorems settling the
specification claims about it.

Conventions of the embedding:
* machine time (`time.time()`) is an explicit `Nat` parameter `now`;
* the random values produced by `secrets.token_urlsafe(32)` are explicit
  `String` parameters (the callers of the model supply the generated value);
* the SQLite store is embedded as three partial maps keyed by the primary
  keys of the three tables of `src/oauth/models.py`;
* Python `Optional[str]` values are `Option String`, and Python truthiness
  on such a value (`if state:`, `if not code:`) is the predicate `pyTruthy`;
* a raised `HTTPException(status_code=..., detail=...)` is the `Except.error`
  side of the result, paired with the database state at the raise point;
* JWT access tokens are embedded as their payload record (the claims put
  into `jwt.encode` by `create_access_token`), since signing is injective
  on payloads for a fixed key.
-/

/-! ### Python string helpers -/

/-- Accumulating splitter over characters: words are maximal runs of
non-whitespace characters; `acc` holds the current word reversed. -/
def pySplitAux : List Char → List Char → List String
  | [], acc => if acc.isEmpty then [] else [String.mk acc.reverse]
  | c :: rest, acc =>
      if c.isWhitespace then
        if acc.isEmpty then pySplitAux rest []
        else String.mk acc.reverse :: pySplitAux rest []
      else pySplitAux rest (c :: acc)

/-- Python `str.split()` with no separator: split on runs of whitespace and
drop empty pieces. -/
def pySplit (s : String) : List String :=
  pySplitAux s.data []

/-- Python truthiness of an `Optional[str]` value: `None` and `""` are falsy. -/
def pyTruthy : Option String → Bool
  | none => false
  | some s => s ≠ ""

/-- UTF-8 encoding of one character, as the list of its byte values
(Python `str.encode()`). -/
def utf8EncodeChar (c : Char) : List Nat :=
  let n := c.toNat
  if n < 128 then [n]
  else if n < 2048 then [192 + n / 64, 128 + n % 64]
  else if n < 65536 then [224 + n / 4096, 128 + (n / 64) % 64, 128 + n % 64]
  else [240 + n / 262144, 128 + (n / 4096) % 64, 128 + (n / 64) % 64, 128 + n % 64]

/-- UTF-8 encoding of a string as a list of byte values. -/
def utf8Encode (s : String) : List Nat :=
  s.data.flatMap utf8EncodeChar

/-! ### SHA-256 (`hashlib.sha256`)

Standard FIPS 180-4 SHA-256 over byte lists, with 32-bit words represented
as `Nat` reduced modulo `2^32`. -/

namespace SHA256

/-- `2^32`, the word modulus. -/
def M32 : Nat := 4294967296

/-- Right rotation of a 32-bit word by `n` bits. -/
def rotr32 (n x : Nat) : Nat := ((x >>> n) + (x <<< (32 - n)) % M32) % M32

/-- The choice function `Ch` of FIPS 180-4. -/
def choose (x y z : Nat) : Nat := (x &&& y) ^^^ ((x ^^^ (M32 - 1)) &&& z)

/-- The majority function `Maj` of FIPS 180-4. -/
def major (x y z : Nat) : Nat := (x &&& y) ^^^ (x &&& z) ^^^ (y &&& z)

/-- The compression mixing function applied to `e` and to `a`. -/
def Sigma0 (x : Nat) : Nat := rotr32 2 x ^^^ rotr32 13 x ^^^ rotr32 22 x

def Sigma1 (x : Nat) : Nat := rotr32 6 x ^^^ rotr32 11 x ^^^ rotr32 25 x

/-- The message-schedule mixing functions. -/
def sigma0 (x : Nat) : Nat := rotr32 7 x ^^^ rotr32 18 x ^^^ (x >>> 3)

def sigma1 (x : Nat) : Nat := rotr32 17 x ^^^ rotr32 19 x ^^^ (x >>> 10)

/-- The 64 round constants of FIPS 180-4 §4.2.2 (decimal). -/
def roundConst : List Nat :=
  [1116352408, 1899447441, 3049323471, 3921009573, 961987163, 1508970993,
   2453635748, 2870763221, 3624381080, 310598401, 607225278, 1426881987,
   1925078388, 2162078206, 2614888103, 3248222580, 3835390401, 4022224774,
   264347078, 604807628, 770255983, 1249150122, 1555081692, 1996064986,
   2554220882, 2821834349, 2952996808, 3210313671, 3336571891, 3584528711,
   113926993, 338241895, 666307205, 773529912, 1294757372, 1396182291,
   1695183700, 1986661051, 2177026350, 2456956037, 2730485921, 2820302411,
   3259730800, 3345764771, 3516065817, 3600352804, 4094571909, 275423344,
   430227734, 506948616, 659060556, 883997877, 958139571, 1322822218,
   1537002063, 1747873779, 1955562222, 2024104815, 2227730452, 2361852424,
   2428436474, 2756734187, 3204031479, 3329325298]

/-- The initial hash state of FIPS 180-4 §5.3.3 (decimal). -/
def initHash : List Nat :=
  [1779033703, 3144134277, 1013904242, 2773480762,
   1359893119, 2600822924, 528734635, 1541459225]

/-- Big-endian bytes of `x`, width `n` bytes. -/
def toBytesBE (n x : Nat) : List Nat :=
  (List.range n).map (fun i => (x >>> (8 * (n - 1 - i))) % 256)

/-- A big-endian 32-bit word from a list of bytes. -/
def bytesToWord (bs : List Nat) : Nat :=
  bs.foldl (fun acc b => acc * 256 + b) 0

/-- FIPS 180-4 padding: append `0x80`, zero bytes to 56 mod 64, then the
bit length as a 64-bit big-endian integer. -/
def pad (msg : List Nat) : List Nat :=
  let len := msg.length
  let zeros := (119 - len % 64) % 64
  msg ++ [128] ++ List.replicate zeros 0 ++ toBytesBE 8 (len * 8)

/-- Message schedule: the 16 block words extended to 64. -/
def schedule (ws : List Nat) : Array Nat :=
  (List.range 48).foldl
    (fun arr t =>
      let i := t + 16
      arr.push ((sigma1 (arr.getD (i - 2) 0) + arr.getD (i - 7) 0 +
                 sigma0 (arr.getD (i - 15) 0) + arr.getD (i - 16) 0) % M32))
    ws.toArray

/-- One compression round on the eight working variables. -/
def round (st : List Nat) (kw : Nat) : List Nat :=
  match st with
  | [a, b, c, d, e, f, g, h] =>
    let t1 := (h + Sigma1 e + choose e f g + kw) % M32
    let t2 := (Sigma0 a + major a b c) % M32
    [(t1 + t2) % M32, a, b, c, (d + t1) % M32, e, f, g]
  | st => st

/-- Compress one 64-byte block (given as its 16 words) into the hash state. -/
def processBlock (h : List Nat) (ws : List Nat) : List Nat :=
  let w := schedule ws
  let fin := (List.range 64).foldl
    (fun st t => round st ((roundConst.getD t 0 + w.getD t 0) % M32)) h
  List.zipWith (fun a b => (a + b) % M32) h fin

/-- SHA-256 digest of a byte list, as a list of 32 byte values. -/
def sha256 (msg : List Nat) : List Nat :=
  let padded := pad msg
  let nblocks := padded.length / 64
  let final := (List.range nblocks).foldl
    (fun h i =>
      processBlock h
        ((List.range 16).map
          (fun j => bytesToWord ((padded.drop (64 * i + 4 * j)).take 4))))
    initHash
  final.flatMap (toBytesBE 4)

end SHA256

/-! ### Base64url and URL encoding -/

/-- The base64url alphabet (`base64.urlsafe_b64encode`). -/
def b64urlAlphabet : List Char :=
  "ABCDEFGHIJKLMNOPQRSTUVWXYZabcdefghijklmnopqrstuvwxyz0123456789-_".data

def b64char (n : Nat) : Char := b64urlAlphabet.getD n 'A'

/-- Base64url encoding without padding: the result of
`base64.urlsafe_b64encode(bytes).decode().rstrip(chr(61))`. -/
def base64urlNoPad : List Nat → List Char
  | [] => []
  | [b1] => [b64char (b1 >>> 2), b64char ((b1 &&& 3) <<< 4)]
  | [b1, b2] =>
      [b64char (b1 >>> 2), b64char (((b1 &&& 3) <<< 4) ||| (b2 >>> 4)),
       b64char ((b2 &&& 15) <<< 2)]
  | b1 :: b2 :: b3 :: rest =>
      b64char (b1 >>> 2) :: b64char (((b1 &&& 3) <<< 4) ||| (b2 >>> 4)) ::
      b64char (((b2 &&& 15) <<< 2) ||| (b3 >>> 6)) :: b64char (b3 &&& 63) ::
      base64urlNoPad rest

/-- The PKCE S256 transformation used at `endpoints.py:244-246`:
`base64.urlsafe_b64encode(hashlib.sha256(code_verifier.encode()).digest()).decode().rstrip(chr(61))`. -/
def s256_challenge (verifier : String) : String :=
  String.mk (base64urlNoPad (SHA256.sha256 (utf8Encode verifier)))

def hexDigit (n : Nat) : Char := "0123456789ABCDEF".data.getD n '0'

/-- Bytes that `urllib.parse.quote_plus` leaves unescaped: ASCII letters,
digits, and the marks `_ . - ~`. -/
def isSafeByte (b : Nat) : Bool :=
  (65 ≤ b && b ≤ 90) || (97 ≤ b && b ≤ 122) || (48 ≤ b && b ≤ 57) ||
  b = 95 || b = 46 || b = 45 || b = 126

/-- `urllib.parse.quote_plus` with empty `safe`: UTF-8 encode, keep safe
bytes, map space to `+`, percent-encode the rest with uppercase hex. -/
def quote_plus (s : String) : String :=
  String.mk ((utf8Encode s).flatMap (fun b =>
    if b = 32 then ['+']
    else if isSafeByte b then [Char.ofNat b]
    else ['%', hexDigit (b / 16), hexDigit (b % 16)]))

/-- `urllib.parse.urlencode` over an ordered parameter list. -/
def urlencode (ps : List (String × String)) : String :=
  String.intercalate "&" (ps.map (fun p => quote_plus p.1 ++ "=" ++ quote_plus p.2))

/-! ### Configuration (`src/config.py`)

Environment-derived values are fixed at their documented defaults; the
claims under verification do not depend on the overridden values. -/

namespace Config

def SERVER_URL : String := "http://localhost:8000"

def JWT_EXPIRES_MINUTES : Nat := 60

def AUTH_CODE_EXPIRES_MINUTES : Nat := 10

def SUPPORTED_SCOPES : List String :=
  ["video:transcribe", "projects:read", "projects:write", "videos:read"]

def DEFAULT_REDIRECT_URIS : List String := ["http://localhost:3334/callback"]

def DEFAULT_GRANT_TYPES : List String := ["authorization_code", "client_credentials"]

def DEFAULT_SCOPE : String := "video:transcribe projects:read projects:write videos:read"

end Config

/-! ### Data model (`src/oauth/models.py`) -/

/-- A row of the `oauth_clients` table. -/
structure Client where
  client_id : String
  client_secret : String
  client_name : String
  redirect_uris : List String
  grant_types : List String
  scope : String
  created_at : Nat
deriving Repr, DecidableEq

/-- A row of the `auth_codes` table. -/
structure AuthCode where
  code : String
  client_id : String
  redirect_uri : String
  scope : String
  code_challenge : Option String
  code_challenge_method : Option String
  created_at : Nat
  expires_at : Nat
deriving Repr, DecidableEq

/-- A row of the `refresh_tokens` table. -/
structure RefreshToken where
  token : String
  client_id : String
  scope : String
  created_at : Nat
deriving Repr, DecidableEq

/-- The persistent store of `src/database.py`: three tables embedded as
partial maps keyed by their primary keys. -/
structure DB where
  clients : String → Option Client
  auth_codes : String → Option AuthCode
  refresh_tokens : String → Option RefreshToken

/-- `DatabaseManager.get_client`. -/
def DB.get_client (db : DB) (client_id : String) : Option Client :=
  db.clients client_id

/-- `DatabaseManager.create_auth_code` (insert keyed by the `code` column). -/
def DB.create_auth_code (db : DB) (a : AuthCode) : DB :=
  { db with auth_codes := fun k => if k = a.code then some a else db.auth_codes k }

/-- `DatabaseManager.get_auth_code`. -/
def DB.get_auth_code (db : DB) (code : String) : Option AuthCode :=
  db.auth_codes code

/-- `DatabaseManager.delete_auth_code`. -/
def DB.delete_auth_code (db : DB) (code : String) : DB :=
  { db with auth_codes := fun k => if k = code then none else db.auth_codes k }

/-- `DatabaseManager.create_refresh_token`. -/
def DB.create_refresh_token (db : DB) (t : RefreshToken) : DB :=
  { db with refresh_tokens := fun k => if k = t.token then some t else db.refresh_tokens k }

/-- `DatabaseManager.get_refresh_token`. -/
def DB.get_refresh_token (db : DB) (token : String) : Option RefreshToken :=
  db.refresh_tokens token

/-- `DatabaseManager.delete_refresh_token`. -/
def DB.delete_refresh_token (db : DB) (token : String) : DB :=
  { db with refresh_tokens := fun k => if k = token then none else db.refresh_tokens k }

/-! ### Errors -/

/-- A raised `fastapi.HTTPException`. -/
structure HTTPException where
  status_code : Nat
  detail : String
deriving Repr, DecidableEq

/-- The spec taxonomy class `InvalidGrant`: bad/expired/mismatched code or
refresh token, or failed PKCE (spec §7 mapped onto the concrete `detail`
strings raised in `endpoints.py`). -/
def isInvalidGrant (e : HTTPException) : Bool :=
  e.status_code = 400 &&
    (e.detail = "Invalid authorization code" ||
     e.detail = "Authorization code expired" ||
     e.detail = "Invalid code verifier" ||
     e.detail = "Invalid refresh token")

/-- The spec taxonomy class `InvalidRequest`: a missing required parameter. -/
def isInvalidRequest (e : HTTPException) : Bool :=
  e.status_code = 400 && e.detail = "Code verifier required"

/-! ### Signer (`src/oauth/auth.py`) -/

/-- The claims payload passed to `jwt.encode` by `create_access_token`. -/
structure AccessToken where
  sub : String
  exp : Nat
  iat : Nat
  iss : String
  aud : String
  scope : String
  token_use : String
deriving Repr, DecidableEq

/-- `create_access_token(subject, scopes)` from `src/oauth/auth.py`, with
the default `expires_minutes = Config.JWT_EXPIRES_MINUTES` applied and the
current time `now` explicit (seconds). -/
def create_access_token (subject : String) (scopes : List String) (now : Nat) : AccessToken :=
  { sub := subject
    exp := now + Config.JWT_EXPIRES_MINUTES * 60
    iat := now
    iss := Config.SERVER_URL
    aud := Config.SERVER_URL
    scope := " ".intercalate scopes
    token_use := "access" }

/-! ### Token endpoint (`src/oauth/endpoints.py`) -/

/-- The JSON body returned by the token endpoint on success. The
`client_credentials` response carries no `refresh_token` key (`none`). -/
structure TokenResponse where
  access_token : AccessToken
  token_type : String
  expires_in : Nat
  refresh_token : Option String
  scope : String
deriving Repr, DecidableEq

/-- The PKCE validation block of `_handle_authorization_code_grant`
(`endpoints.py:237-249`), returning the exception it raises, if any. -/
def pkceCheck (auth_info : AuthCode) (code_verifier : Option String) : Option HTTPException :=
  if pyTruthy auth_info.code_challenge then
    if !pyTruthy code_verifier then
      some ⟨400, "Code verifier required"⟩
    else if auth_info.code_challenge_method = some "S256" then
      if s256_challenge (code_verifier.getD "") ≠ auth_info.code_challenge.getD "" then
        some ⟨400, "Invalid code verifier"⟩
      else none
    else none
  else none

/-- `_handle_authorization_code_grant(code, client_id, redirect_uri,
code_verifier)` (`endpoints.py:220-274`). `now` is the machine time and
`freshToken` the value produced by `secrets.token_urlsafe(32)` for the new
refresh token. The result pairs the store state at return/raise time with
the response or raised exception. -/
def _handle_authorization_code_grant (db : DB) (code : Option String)
    (client_id : String) ( redirect_uri : Option String) (code_verifier : Option String)
    (now : Nat) (freshToken : String) : DB × Except HTTPException TokenResponse :=
  if !pyTruthy code then
    (db, .error ⟨400, "Invalid authorization code"⟩)
  else
    match db.get_auth_code (code.getD "") with
    | none => (db, .error ⟨400, "Invalid authorization code"⟩)
    | some auth_info =>
      if now > auth_info.expires_at then
        (db.delete_auth_code (code.getD ""), .error ⟨400, "Authorization code expired"⟩)
      else
        match pkceCheck auth_info code_verifier with
        | some e => (db, .error e)
        | none =>
          let scopes := pySplit auth_info.scope
          let access_token := create_access_token client_id scopes now
          let token_data : RefreshToken :=
            { token := freshToken, client_id := client_id,
              scope := auth_info.scope, created_at := now }
          let db1 := db.create_refresh_token token_data
          let db2 := db1.delete_auth_code (code.getD "")
          (db2,
           .ok { access_token := access_token, token_type := "Bearer",
                 expires_in := Config.JWT_EXPIRES_MINUTES * 60,
                 refresh_token := some freshToken, scope := auth_info.scope })

/-- `_handle_client_credentials_grant(client_id, scope)`
(`endpoints.py:277-290`). -/
def _handle_client_credentials_grant (db : DB) (client_id : String)
    (scope : Option String) (now : Nat) : DB × Except HTTPException TokenResponse :=
  let request_scope := if pyTruthy scope then scope.getD "" else (pySplit Config.DEFAULT_SCOPE).getD 0 ""
  let scopes := pySplit request_scope
  let access_token := create_access_token client_id scopes now
  (db, .ok { access_token := access_token, token_type := "Bearer",
             expires_in := Config.JWT_EXPIRES_MINUTES * 60,
             refresh_token := none, scope := request_scope })

/-- `_handle_refresh_token_grant(refresh_token, client_id)`
(`endpoints.py:293-326`). -/
def _handle_refresh_token_grant (db : DB) (refresh_token : Option String)
    (client_id : String) (now : Nat) (freshToken : String) :
    DB × Except HTTPException TokenResponse :=
  if !pyTruthy refresh_token then
    (db, .error ⟨400, "Invalid refresh token"⟩)
  else
    match db.get_refresh_token (refresh_token.getD "") with
    | none => (db, .error ⟨400, "Invalid refresh token"⟩)
    | some token_info =>
      if token_info.client_id ≠ client_id then
        (db, .error ⟨400, "Invalid refresh token"⟩)
      else
        let scopes := pySplit token_info.scope
        let access_token := create_access_token client_id scopes now
        let db1 := db.delete_refresh_token (refresh_token.getD "")
        let new_token_data : RefreshToken :=
          { token := freshToken, client_id := client_id,
            scope := token_info.scope, created_at := now }
        let db2 := db1.create_refresh_token new_token_data
        (db2,
         .ok { access_token := access_token, token_type := "Bearer",
               expires_in := Config.JWT_EXPIRES_MINUTES * 60,
               refresh_token := some freshToken, scope := token_info.scope })

/-- `token_endpoint` (`endpoints.py:140-172`): client authentication then
dispatch on `grant_type`. -/
def token_endpoint (db : DB) (grant_type client_id client_secret : String)
    (code redirect_uri code_verifier refresh_token scope : Option String)
    (now : Nat) (freshToken : String) : DB × Except HTTPException TokenResponse :=
  match db.get_client client_id with
  | none => (db, .error ⟨400, "Invalid client"⟩)
  | some client =>
    if client.client_secret ≠ client_secret then
      (db, .error ⟨400, "Invalid client credentials"⟩)
    else if grant_type = "authorization_code" then
      _handle_authorization_code_grant db code client_id redirect_uri code_verifier now freshToken
    else if grant_type = "client_credentials" then
      _handle_client_credentials_grant db client_id scope now
    else if grant_type = "refresh_token" then
      _handle_refresh_token_grant db refresh_token client_id now freshToken
    else
      (db, .error ⟨400, "Unsupported grant type"⟩)

/-! ### Authorization endpoint (`src/oauth/endpoints.py:94-137`) -/

/-- The `RedirectResponse` target built at `endpoints.py:131-137`: the
requested `redirect_uri` plus the ordered query-parameter dict. -/
structure RedirectTarget where
  base : String
  params : List (String × String)
deriving Repr, DecidableEq

/-- The `callback_url` string: `redirect_uri + chr(63) + urlencode(params)`. -/
def RedirectTarget.url (r : RedirectTarget) : String :=
  r.base ++ "?" ++ urlencode r.params

/-- `authorize(response_type, client_id, redirect_uri, scope, state,
code_challenge, code_challenge_method)` (`endpoints.py:94-137`). `auth_code`
is the value produced by `secrets.token_urlsafe(32)` and `now` the machine
time. The `scope` parameter's FastAPI default is the first configured scope;
callers of the model pass it explicitly. -/
def authorize (db : DB) (response_type client_id redirect_uri : String)
    (scope : String) (state code_challenge code_challenge_method : Option String)
    (auth_code : String) (now : Nat) : DB × Except HTTPException RedirectTarget :=
  match db.get_client client_id with
  | none => (db, .error ⟨400, "Invalid client_id"⟩)
  | some client =>
    if !client.redirect_uris.contains redirect_uri then
      (db, .error ⟨400, "Invalid redirect_uri"⟩)
    else
      let code_data : AuthCode :=
        { code := auth_code, client_id := client_id, redirect_uri := redirect_uri,
          scope := scope, code_challenge := code_challenge,
          code_challenge_method := code_challenge_method,
          created_at := now,
          expires_at := now + Config.AUTH_CODE_EXPIRES_MINUTES * 60 }
      let db1 := db.create_auth_code code_data
      let params := [("code", auth_code)] ++
        (if pyTruthy state then [("state", state.getD "")] else [])
      (db1, .ok { base := redirect_uri, params := params })

/-! ### Concrete store fixtures used by witnesses and counterexamples -/

/-- The empty store. -/
def emptyDB : DB :=
  { clients := fun _ => none, auth_codes := fun _ => none, refresh_tokens := fun _ => none }

/-- A registered client whose registered scope is only `videos:read`. -/
def clientA : Client :=
  { client_id := "client-1", client_secret := "secret-1", client_name := "App",
    redirect_uris := ["https://app.test/cb"], grant_types := ["authorization_code"],
    scope := "videos:read", created_at := 0 }

/-- A store holding exactly `clientA`. -/
def dbA : DB :=
  { emptyDB with clients := fun k => if k = "client-1" then some clientA else none }

/-- A pending authorization code without PKCE, expiring at time 600. -/
def codeA : AuthCode :=
  { code := "code-1", client_id := "client-1", redirect_uri := "https://app.test/cb",
    scope := "video:transcribe", code_challenge := none, code_challenge_method := none,
    created_at := 0, expires_at := 600 }

/-- `dbA` plus the pending code `codeA`. -/
def dbB : DB := dbA.create_auth_code codeA

/-- A pending code carrying a PKCE challenge with method `plain`. -/
def codeP : AuthCode :=
  { codeA with
    code := "code-p"
    code_challenge := some "mismatch-challenge"
    code_challenge_method := some "plain" }

/-- `dbA` plus the `plain`-method code `codeP`. -/
def dbP : DB := dbA.create_auth_code codeP

/-- A pending code carrying the S256 challenge of the verifier `abc123`. -/
def codeS : AuthCode :=
  { codeA with
    code := "code-s"
    code_challenge := some (s256_challenge "abc123")
    code_challenge_method := some "S256" }

/-- `dbA` plus the S256 code `codeS`. -/
def dbS : DB := dbA.create_auth_code codeS

/-- `dbA` plus a stored refresh token `R1` for `client-1`. -/
def dbR : DB :=
  dbA.create_refresh_token
    { token := "R1", client_id := "client-1", scope := "videos:read", created_at := 0 }

/-! ### Store transparency lemmas -/

theorem clients_create_refresh_token (db : DB) (t : RefreshToken) :
    (db.create_refresh_token t).clients = db.clients := rfl

theorem clients_delete_refresh_token (db : DB) (s : String) :
    (db.delete_refresh_token s).clients = db.clients := rfl

theorem clients_delete_auth_code (db : DB) (c : String) :
    (db.delete_auth_code c).clients = db.clients := rfl

theorem auth_codes_create_refresh_token (db : DB) (t : RefreshToken) :
    (db.create_refresh_token t).auth_codes = db.auth_codes := rfl

theorem delete_auth_code_self (db : DB) (c : String) :
    (db.delete_auth_code c).auth_codes c = none := by
  simp [DB.delete_auth_code]

/-! ### Helper lemmas -/

/-- Outcome of `pkceCheck` when a challenge is stored and the verifier is
absent or empty. -/
theorem pkceCheck_absent (info : AuthCode) (v0 : Option String)
    (hch : pyTruthy info.code_challenge = true) (hv0 : pyTruthy v0 = false) :
    pkceCheck info v0 = some ⟨400, "Code verifier required"⟩ := by
  unfold pkceCheck
  rw [hch, hv0]
  simp

/-- Outcome of `pkceCheck` under method S256 with a matching non-empty
verifier. -/
theorem pkceCheck_s256_match (info : AuthCode) (w : String)
    (hch : pyTruthy info.code_challenge = true) (hw : w ≠ "")
    (hm : info.code_challenge_method = some "S256")
    (hmatch : s256_challenge w = info.code_challenge.getD "") :
    pkceCheck info (some w) = none := by
  unfold pkceCheck
  have hwt : pyTruthy (some w) = true := by simp [pyTruthy, hw]
  rw [hch, hwt, hm]
  simp [hmatch]

/-- Outcome of `pkceCheck` under method S256 with a mismatching non-empty
verifier. -/
theorem pkceCheck_s256_mismatch (info : AuthCode) (w : String)
    (hch : pyTruthy info.code_challenge = true) (hw : w ≠ "")
    (hm : info.code_challenge_method = some "S256")
    (hne2 : s256_challenge w ≠ info.code_challenge.getD "") :
    pkceCheck info (some w) = some ⟨400, "Invalid code verifier"⟩ := by
  unfold pkceCheck
  have hwt : pyTruthy (some w) = true := by simp [pyTruthy, hw]
  rw [hch, hwt, hm]
  simp [hne2]

/-- Inversion: success of an `authorization_code` exchange at the token
endpoint implies the client authenticated and the result came from the
grant handler. -/
theorem token_endpoint_auth_code_ok_inv (db : DB) (cid cs : String)
    (code ru v : Option String) (now : Nat) (ft : String) (resp : TokenResponse)
    (h : (token_endpoint db "authorization_code" cid cs code ru v none none now ft).2 = .ok resp) :
    ∃ client, db.get_client cid = some client ∧ client.client_secret = cs ∧
      token_endpoint db "authorization_code" cid cs code ru v none none now ft
        = _handle_authorization_code_grant db code cid ru v now ft := by
  unfold token_endpoint at h
  cases hcl : db.get_client cid with
  | none => rw [hcl] at h; simp at h
  | some client =>
    rw [hcl] at h
    by_cases hsec : client.client_secret = cs
    · refine ⟨client, rfl, hsec, ?_⟩
      unfold token_endpoint
      rw [hcl]
      simp [hsec]
    · simp [hsec] at h

/-- Inversion: success of the authorization-code grant handler implies the
code was present and unexpired, PKCE passed, and the result is the success
record with the code deleted and a refresh token created. -/
theorem auth_code_grant_ok_inv (db : DB) (code : Option String) (cid : String)
    (ru v : Option String) (now : Nat) (ft : String) (resp : TokenResponse)
    (h : (_handle_authorization_code_grant db code cid ru v now ft).2 = .ok resp) :
    pyTruthy code = true ∧
    ∃ info, db.get_auth_code (code.getD "") = some info ∧
      ¬ now > info.expires_at ∧ pkceCheck info v = none ∧
      _handle_authorization_code_grant db code cid ru v now ft
        = ((db.create_refresh_token
              { token := ft, client_id := cid, scope := info.scope, created_at := now }).delete_auth_code
             (code.getD ""),
           .ok { access_token := create_access_token cid (pySplit info.scope) now,
                 token_type := "Bearer", expires_in := Config.JWT_EXPIRES_MINUTES * 60,
                 refresh_token := some ft, scope := info.scope }) := by
  cases h1 : pyTruthy code with
  | false => unfold _handle_authorization_code_grant at h; rw [h1] at h; simp at h
  | true =>
    refine ⟨rfl, ?_⟩
    unfold _handle_authorization_code_grant at h
    rw [h1] at h
    simp only [Bool.not_true, Bool.false_eq_true, if_false] at h
    cases hg : db.get_auth_code (code.getD "") with
    | none => rw [hg] at h; simp at h
    | some info =>
      rw [hg] at h
      by_cases h2 : now > info.expires_at
      · simp [h2] at h
      · simp only [h2, if_false] at h
        cases hp : pkceCheck info v with
        | some e => rw [hp] at h; simp at h
        | none =>
          refine ⟨info, rfl, h2, hp, ?_⟩
          unfold _handle_authorization_code_grant
          rw [h1, hg]
          simp [h2, hp]

/-! ### Claim theorems -/

/-- C1: an authorization code is redeemable at most once. If an
`authorization_code`-grant exchange succeeds, the resulting store no longer
holds the code, any second exchange with the same code fails with the
`InvalidGrant` error `Invalid authorization code`, and this is exactly the
error produced for any code absent from the store — a never-issued code is
indistinguishable from a spent one. -/
theorem auth_code_single_use (db : DB) (cid cs c : String) (ru v : Option String)
    (now : Nat) (ft : String) (resp : TokenResponse)
    (hok : (token_endpoint db "authorization_code" cid cs (some c) ru v none none now ft).2 = .ok resp) :
    ∀ db2 : DB,
      db2 = (token_endpoint db "authorization_code" cid cs (some c) ru v none none now ft).1 →
      db2.get_auth_code c = none ∧
      (∀ (ru2 v2 : Option String) (now2 : Nat) (ft2 : String),
        token_endpoint db2 "authorization_code" cid cs (some c) ru2 v2 none none now2 ft2
          = (db2, .error ⟨400, "Invalid authorization code"⟩)) ∧
      (∀ c2 : String, db2.get_auth_code c2 = none →
        ∀ (ru2 v2 : Option String) (now2 : Nat) (ft2 : String),
          token_endpoint db2 "authorization_code" cid cs (some c2) ru2 v2 none none now2 ft2
            = (db2, .error ⟨400, "Invalid authorization code"⟩)) := by
  obtain ⟨client, hcl, hsec, heq⟩ :=
    token_endpoint_auth_code_ok_inv db cid cs (some c) ru v now ft resp hok
  rw [heq] at hok
  obtain ⟨h1, info, hg, h2, hp, heq2⟩ :=
    auth_code_grant_ok_inv db (some c) cid ru v now ft resp hok
  intro db2 hdb2
  rw [heq, heq2] at hdb2
  simp only [Option.getD_some] at hdb2
  have hself : db2.get_auth_code c = none := by
    rw [hdb2]
    simp [DB.get_auth_code, DB.delete_auth_code]
  have hclient : db2.get_client cid = some client := by
    rw [hdb2]
    exact hcl
  have hstep : ∀ c2 : String, db2.get_auth_code c2 = none →
      ∀ (ru2 v2 : Option String) (now2 : Nat) (ft2 : String),
        token_endpoint db2 "authorization_code" cid cs (some c2) ru2 v2 none none now2 ft2
          = (db2, .error ⟨400, "Invalid authorization code"⟩) := by
    intro c2 hc2 ru2 v2 now2 ft2
    unfold token_endpoint
    rw [hclient]
    simp only [hsec]
    cases htr : pyTruthy (some c2) with
    | false => simp [_handle_authorization_code_grant, htr]
    | true => simp [_handle_authorization_code_grant, htr, hc2]
  exact ⟨hself, fun ru2 v2 now2 ft2 => hstep c hself ru2 v2 now2 ft2, hstep⟩

/-- C1 witness: in the concrete store `dbB`, redeeming `code-1` succeeds,
deletes the record, and a second redemption fails as not-found. -/
theorem auth_code_single_use_witness :
    ((token_endpoint dbB "authorization_code" "client-1" "secret-1" (some "code-1") none none none none 100 "rt-1").1).get_auth_code "code-1" = none ∧
    token_endpoint
        ((token_endpoint dbB "authorization_code" "client-1" "secret-1" (some "code-1") none none none none 100 "rt-1").1)
        "authorization_code" "client-1" "secret-1" (some "code-1") none none none none 101 "rt-2"
      = ((token_endpoint dbB "authorization_code" "client-1" "secret-1" (some "code-1") none none none none 100 "rt-1").1,
         .error ⟨400, "Invalid authorization code"⟩) := by
  have h := auth_code_single_use dbB "client-1" "secret-1" "code-1" none none 100 "rt-1"
      { access_token := create_access_token "client-1" (pySplit "video:transcribe") 100,
        token_type := "Bearer", expires_in := Config.JWT_EXPIRES_MINUTES * 60,
        refresh_token := some "rt-1", scope := "video:transcribe" }
      (by rfl)
      ((token_endpoint dbB "authorization_code" "client-1" "secret-1" (some "code-1") none none none none 100 "rt-1").1)
      rfl
  exact ⟨h.1, h.2.1 none none 101 "rt-2"⟩

/-- C2: refresh tokens are rotated, never reused. A successful
`refresh_token`-grant exchange deletes the presented token, creates and
persists a fresh token bound to the same `client_id` and scope, returns it,
and any subsequent exchange presenting the old token fails with
`InvalidGrant`. -/
theorem refresh_token_rotation (db : DB) (client : Client) (cid cs r : String)
    (info : RefreshToken) (now : Nat) (ft : String)
    (hc : db.get_client cid = some client) (hs : client.client_secret = cs)
    (hr : r ≠ "") (ht : db.get_refresh_token r = some info) (hcid : info.client_id = cid)
    (hfresh : ft ≠ r) :
    token_endpoint db "refresh_token" cid cs none none none (some r) none now ft
      = ((db.delete_refresh_token r).create_refresh_token
           { token := ft, client_id := cid, scope := info.scope, created_at := now },
         .ok { access_token := create_access_token cid (pySplit info.scope) now,
               token_type := "Bearer", expires_in := Config.JWT_EXPIRES_MINUTES * 60,
               refresh_token := some ft, scope := info.scope }) ∧
    (∀ db2 : DB,
      db2 = (db.delete_refresh_token r).create_refresh_token
              { token := ft, client_id := cid, scope := info.scope, created_at := now } →
      db2.get_refresh_token r = none ∧
      db2.get_refresh_token ft
        = some { token := ft, client_id := cid, scope := info.scope, created_at := now } ∧
      ∀ (now2 : Nat) (ft2 : String),
        token_endpoint db2 "refresh_token" cid cs none none none (some r) none now2 ft2
          = (db2, .error ⟨400, "Invalid refresh token"⟩)) := by
  constructor
  · simp [token_endpoint, hc, hs, _handle_refresh_token_grant, pyTruthy, hr, ht, hcid]
  · intro db2 hdb2
    subst hdb2
    have hrn : (r = ft) = False := by
      simp [Ne.symm hfresh]
    refine ⟨?_, ?_, ?_⟩
    · simp [DB.get_refresh_token, DB.create_refresh_token, DB.delete_refresh_token, hrn]
    · simp [DB.get_refresh_token, DB.create_refresh_token, DB.delete_refresh_token]
    · intro now2 ft2
      simp [token_endpoint, DB.get_client, DB.create_refresh_token, DB.delete_refresh_token]
      simp only [DB.get_client] at hc
      simp [hc, hs, _handle_refresh_token_grant, pyTruthy, hr,
            DB.get_refresh_token, hrn]

/-- C2 witness: in the concrete store `dbR`, redeeming `R1` rotates it into
`R2`, and presenting `R1` again fails with `InvalidGrant`. -/
theorem refresh_token_rotation_witness :
    token_endpoint dbR "refresh_token" "client-1" "secret-1" none none none (some "R1") none 50 "R2"
      = ((dbR.delete_refresh_token "R1").create_refresh_token
           { token := "R2", client_id := "client-1", scope := "videos:read", created_at := 50 },
         .ok { access_token := create_access_token "client-1" (pySplit "videos:read") 50,
               token_type := "Bearer", expires_in := Config.JWT_EXPIRES_MINUTES * 60,
               refresh_token := some "R2", scope := "videos:read" }) ∧
    ((dbR.delete_refresh_token "R1").create_refresh_token
       { token := "R2", client_id := "client-1", scope := "videos:read", created_at := 50 }).get_refresh_token "R1" = none ∧
    token_endpoint
        ((dbR.delete_refresh_token "R1").create_refresh_token
          { token := "R2", client_id := "client-1", scope := "videos:read", created_at := 50 })
        "refresh_token" "client-1" "secret-1" none none none (some "R1") none 60 "R3"
      = ((dbR.delete_refresh_token "R1").create_refresh_token
           { token := "R2", client_id := "client-1", scope := "videos:read", created_at := 50 },
         .error ⟨400, "Invalid refresh token"⟩) := by
  have h := refresh_token_rotation dbR clientA "client-1" "secret-1" "R1"
      { token := "R1", client_id := "client-1", scope := "videos:read", created_at := 0 }
      50 "R2" (by rfl) rfl (by decide) (by rfl) rfl (by decide)
  have h2 := h.2 _ rfl
  exact ⟨h.1, h2.1, h2.2.2 60 "R3"⟩

/-- C3 (amended): for every stored code carrying a PKCE challenge —
whatever its `code_challenge_method` — the exchange fails `InvalidRequest`
(`Code verifier required`) when the verifier is absent or empty; when the
method is S256 and the verifier is non-empty, the exchange recomputes
`base64url(sha256(verifier))` without padding, succeeds when it equals the
stored challenge, and fails `InvalidGrant` (`Invalid code verifier`) for any
other non-empty verifier. -/
theorem pkce_s256_verification (db : DB) (client : Client) (cid cs c : String)
    (info : AuthCode) (ru : Option String) (now : Nat) (ft : String)
    (hc : db.get_client cid = some client) (hs : client.client_secret = cs)
    (hne : c ≠ "") (hcode : db.get_auth_code c = some info)
    (hexp : ¬ now > info.expires_at)
    (hch : pyTruthy info.code_challenge = true) :
    (∀ v0 : Option String, pyTruthy v0 = false →
      token_endpoint db "authorization_code" cid cs (some c) ru v0 none none now ft
        = (db, .error ⟨400, "Code verifier required"⟩)) ∧
    (∀ w : String, info.code_challenge_method = some "S256" →
      w ≠ "" → s256_challenge w = info.code_challenge.getD "" →
      token_endpoint db "authorization_code" cid cs (some c) ru (some w) none none now ft
        = ((db.create_refresh_token
              { token := ft, client_id := cid, scope := info.scope, created_at := now }).delete_auth_code c,
           .ok { access_token := create_access_token cid (pySplit info.scope) now,
                 token_type := "Bearer", expires_in := Config.JWT_EXPIRES_MINUTES * 60,
                 refresh_token := some ft, scope := info.scope })) ∧
    (∀ w : String, info.code_challenge_method = some "S256" →
      w ≠ "" → s256_challenge w ≠ info.code_challenge.getD "" →
      token_endpoint db "authorization_code" cid cs (some c) ru (some w) none none now ft
        = (db, .error ⟨400, "Invalid code verifier"⟩)) ∧
    isInvalidRequest ⟨400, "Code verifier required"⟩ = true ∧
    isInvalidGrant ⟨400, "Invalid code verifier"⟩ = true := by
  refine ⟨?_, ?_, ?_, by decide, by decide⟩
  · intro v0 hv0
    simp [token_endpoint, hc, hs, _handle_authorization_code_grant, pyTruthy, hne,
          hcode, hexp, pkceCheck_absent info v0 hch hv0]
  · intro w hm hw hmatch
    simp [token_endpoint, hc, hs, _handle_authorization_code_grant, pyTruthy, hne,
          hcode, hexp, pkceCheck_s256_match info w hch hw hm hmatch]
  · intro w hm hw hne2
    simp [token_endpoint, hc, hs, _handle_authorization_code_grant, pyTruthy, hne,
          hcode, hexp, pkceCheck_s256_mismatch info w hch hw hm hne2]

set_option maxRecDepth 1000000 in
/-- C3 counterexample: a supplied-but-empty `code_verifier` is a verifier
whose S256 hash differs from the stored challenge, yet the exchange fails
with the `InvalidRequest` error `Code verifier required`, not with
`InvalidGrant` as the claim states. -/
theorem pkce_empty_verifier_invalid_request_cex :
    (token_endpoint dbS "authorization_code" "client-1" "secret-1" (some "code-s") none (some "")
        none none 100 "rt-s").2
      = .error ⟨400, "Code verifier required"⟩ ∧
    isInvalidGrant ⟨400, "Code verifier required"⟩ = false ∧
    s256_challenge "" ≠ s256_challenge "abc123" := ⟨by rfl, by decide, by decide⟩

set_option maxRecDepth 1000000 in
/-- C3 witness: with the stored challenge `s256_challenge "abc123"`, an
absent verifier fails `Code verifier required`, the verifier `abc123`
succeeds, and the non-empty verifier `wrong-verifier` fails with
`Invalid code verifier`. -/
theorem pkce_s256_verification_witness :
    token_endpoint dbS "authorization_code" "client-1" "secret-1" (some "code-s") none
        none none none 100 "rt-s"
      = (dbS, .error ⟨400, "Code verifier required"⟩) ∧
    token_endpoint dbS "authorization_code" "client-1" "secret-1" (some "code-s") none
        (some "abc123") none none 100 "rt-s"
      = ((dbS.create_refresh_token
            { token := "rt-s", client_id := "client-1", scope := "video:transcribe", created_at := 100 }).delete_auth_code "code-s",
         .ok { access_token := create_access_token "client-1" (pySplit "video:transcribe") 100,
               token_type := "Bearer", expires_in := Config.JWT_EXPIRES_MINUTES * 60,
               refresh_token := some "rt-s", scope := "video:transcribe" }) ∧
    token_endpoint dbS "authorization_code" "client-1" "secret-1" (some "code-s") none
        (some "wrong-verifier") none none 100 "rt-s"
      = (dbS, .error ⟨400, "Invalid code verifier"⟩) := by
  have h := pkce_s256_verification dbS clientA "client-1" "secret-1" "code-s" codeS none 100 "rt-s"
      (by rfl) rfl (by decide) (by rfl) (by decide) (by decide)
  exact ⟨h.1 none rfl, h.2.1 "abc123" (by rfl) (by decide) (by rfl),
         h.2.2.1 "wrong-verifier" (by rfl) (by decide) (by decide)⟩

/-- C4 (code bug): the authorization endpoint never validates
`response_type`. With `response_type = "token"` (≠ `"code"`), the request
does not fail with `UnsupportedResponseType`: it creates an authorization
code and produces a redirect exactly as for `response_type = "code"`. -/
theorem authorize_ignores_response_type_bug :
    (authorize dbA "token" "client-1" "https://app.test/cb" "video:transcribe" none none none "ac-1" 42).2
      = .ok { base := "https://app.test/cb", params := [("code", "ac-1")] } ∧
    ((authorize dbA "token" "client-1" "https://app.test/cb" "video:transcribe" none none none "ac-1" 42).1).auth_codes "ac-1"
      = some { code := "ac-1", client_id := "client-1", redirect_uri := "https://app.test/cb",
               scope := "video:transcribe", code_challenge := none, code_challenge_method := none,
               created_at := 42, expires_at := 642 } ∧
    ("token" : String) ≠ "code" := ⟨by rfl, by rfl, by decide⟩

/-- C5 counterexample: authenticating with an unknown `client_id` and with a
known `client_id` but wrong secret produce different errors (`Invalid
client` vs `Invalid client credentials`), so the two cases are
distinguishable, contrary to the claim. -/
theorem client_auth_errors_distinguishable_cex :
    (token_endpoint dbA "client_credentials" "unknown-client" "whatever" none none none none none 0 "t").2
      = .error ⟨400, "Invalid client"⟩ ∧
    (token_endpoint dbA "client_credentials" "client-1" "wrong-secret" none none none none none 0 "t").2
      = .error ⟨400, "Invalid client credentials"⟩ ∧
    (⟨400, "Invalid client"⟩ : HTTPException) ≠ ⟨400, "Invalid client credentials"⟩ :=
  ⟨by rfl, by rfl, by decide⟩

/-- C5 (amended): an unknown `client_id` fails with `Invalid client` and a
known `client_id` with a wrong secret fails with `Invalid client
credentials`; the two errors share HTTP status 400 but differ in their
detail strings. -/
theorem client_auth_errors_same_status (db : DB) (gt cid1 cs1 cid2 cs2 : String) (client : Client)
    (h1 : db.get_client cid1 = none) (h2 : db.get_client cid2 = some client)
    (hw : client.client_secret ≠ cs2) (code ru v rt sc : Option String) (now : Nat) (ft : String) :
    token_endpoint db gt cid1 cs1 code ru v rt sc now ft = (db, .error ⟨400, "Invalid client"⟩) ∧
    token_endpoint db gt cid2 cs2 code ru v rt sc now ft = (db, .error ⟨400, "Invalid client credentials"⟩) ∧
    HTTPException.status_code ⟨400, "Invalid client"⟩ = HTTPException.status_code ⟨400, "Invalid client credentials"⟩ ∧
    HTTPException.detail ⟨400, "Invalid client"⟩ ≠ HTTPException.detail ⟨400, "Invalid client credentials"⟩ := by
  refine ⟨?_, ?_, rfl, by decide⟩
  · simp [token_endpoint, h1]
  · simp [token_endpoint, h2, hw]

/-- C5 witness: the amended statement at the concrete store `dbA`. -/
theorem client_auth_errors_same_status_witness :
    token_endpoint dbA "client_credentials" "unknown-client" "whatever" none none none none none 0 "t"
      = (dbA, .error ⟨400, "Invalid client"⟩) ∧
    token_endpoint dbA "client_credentials" "client-1" "wrong-secret" none none none none none 0 "t"
      = (dbA, .error ⟨400, "Invalid client credentials"⟩) := by
  have h := client_auth_errors_same_status dbA "client_credentials" "unknown-client" "whatever"
      "client-1" "wrong-secret" clientA (by rfl) (by rfl) (by decide) none none none none none 0 "t"
  exact ⟨h.1, h.2.1⟩

set_option maxRecDepth 400000 in
/-- C6 (code bug): for a stored code whose `code_challenge_method` is
`plain` (≠ `S256`), the exchange succeeds while skipping verifier
verification entirely: the supplied verifier does not hash to the stored
challenge, yet tokens are issued. -/
theorem pkce_plain_method_skips_verification_bug :
    (token_endpoint dbP "authorization_code" "client-1" "secret-1" (some "code-p") none
        (some "wrong-verifier") none none 100 "rt-p").2
      = .ok { access_token := create_access_token "client-1" (pySplit "video:transcribe") 100,
              token_type := "Bearer", expires_in := Config.JWT_EXPIRES_MINUTES * 60,
              refresh_token := some "rt-p", scope := "video:transcribe" } ∧
    s256_challenge "wrong-verifier" ≠ "mismatch-challenge" := ⟨by rfl, by decide⟩

/-- C7: an `authorization_code`-grant exchange of a code whose `expires_at`
is in the past fails with the `InvalidGrant` error `Authorization code
expired` and deletes the code record as part of that failing exchange. -/
theorem expired_code_deleted_and_rejected (db : DB) (client : Client) (cid cs c : String)
    (info : AuthCode) (ru v : Option String) (now : Nat) (ft : String)
    (hc : db.get_client cid = some client) (hs : client.client_secret = cs)
    (hne : c ≠ "") (hcode : db.get_auth_code c = some info) (hexp : now > info.expires_at) :
    token_endpoint db "authorization_code" cid cs (some c) ru v none none now ft
      = (db.delete_auth_code c, .error ⟨400, "Authorization code expired"⟩) ∧
    (db.delete_auth_code c).auth_codes c = none ∧
    isInvalidGrant ⟨400, "Authorization code expired"⟩ = true := by
  refine ⟨?_, delete_auth_code_self db c, by decide⟩
  simp [token_endpoint, hc, hs, _handle_authorization_code_grant, pyTruthy, hne, hcode, hexp]

/-- C7 witness: in `dbB` the code `code-1` expires at 600; exchanging it at
time 700 fails as expired and removes the record. -/
theorem expired_code_deleted_and_rejected_witness :
    token_endpoint dbB "authorization_code" "client-1" "secret-1" (some "code-1") none none none none 700 "rt-1"
      = (dbB.delete_auth_code "code-1", .error ⟨400, "Authorization code expired"⟩) ∧
    (dbB.delete_auth_code "code-1").auth_codes "code-1" = none ∧
    isInvalidGrant ⟨400, "Authorization code expired"⟩ = true :=
  expired_code_deleted_and_rejected dbB clientA "client-1" "secret-1" "code-1" codeA none none 700 "rt-1"
    (by rfl) rfl (by decide) (by rfl) (by decide)

/-- C8 counterexample: a supplied empty-string `state` is silently dropped:
the redirect parameters contain no `state` key at all, contrary to the
claim that any supplied state value is passed through. -/
theorem authorize_drops_empty_state_cex :
    (authorize dbA "code" "client-1" "https://app.test/cb" "video:transcribe" (some "")
        none none "ac-1" 42).2
      = .ok { base := "https://app.test/cb", params := [("code", "ac-1")] } ∧
    List.lookup "state" [("code", "ac-1")] = none := ⟨by rfl, by rfl⟩

/-- C8 (amended): a successful authorization redirects to the requested
`redirect_uri` with a `code` parameter holding the fresh authorization code;
a supplied non-empty `state` is appended unmodified, byte for byte, while an
absent (or empty, by the counterexample) `state` yields no state
parameter. -/
theorem authorize_state_roundtrip (db : DB) (client : Client) (rt cid ru sc ac : String)
    (cc ccm : Option String) (now : Nat)
    (hc : db.get_client cid = some client) (hru : ru ∈ client.redirect_uris) :
    (∀ s : String, s ≠ "" →
      authorize db rt cid ru sc (some s) cc ccm ac now
        = (db.create_auth_code
             { code := ac, client_id := cid, redirect_uri := ru, scope := sc,
               code_challenge := cc, code_challenge_method := ccm,
               created_at := now, expires_at := now + Config.AUTH_CODE_EXPIRES_MINUTES * 60 },
           .ok { base := ru, params := [("code", ac), ("state", s)] })) ∧
    (authorize db rt cid ru sc none cc ccm ac now
        = (db.create_auth_code
             { code := ac, client_id := cid, redirect_uri := ru, scope := sc,
               code_challenge := cc, code_challenge_method := ccm,
               created_at := now, expires_at := now + Config.AUTH_CODE_EXPIRES_MINUTES * 60 },
           .ok { base := ru, params := [("code", ac)] })) := by
  constructor
  · intro s hs
    simp [authorize, hc, hru, pyTruthy, hs]
  · simp [authorize, hc, hru, pyTruthy]

/-- C8 witness: the amended statement at the concrete store `dbA` with
state `xyz`. -/
theorem authorize_state_roundtrip_witness :
    authorize dbA "code" "client-1" "https://app.test/cb" "video:transcribe" (some "xyz")
        none none "ac-1" 42
      = (dbA.create_auth_code
           { code := "ac-1", client_id := "client-1", redirect_uri := "https://app.test/cb",
             scope := "video:transcribe", code_challenge := none, code_challenge_method := none,
             created_at := 42, expires_at := 42 + Config.AUTH_CODE_EXPIRES_MINUTES * 60 },
         .ok { base := "https://app.test/cb", params := [("code", "ac-1"), ("state", "xyz")] }) := by
  have h := authorize_state_roundtrip dbA clientA "code" "client-1" "https://app.test/cb"
      "video:transcribe" "ac-1" none none 42 (by rfl) (by decide)
  exact h.1 "xyz" (by decide)

/-- C9 counterexample: a supplied empty scope string is not echoed back: the
grant falls back to the first configured default scope, so the granted scope
(`video:transcribe`) differs from the supplied `""`. -/
theorem client_credentials_empty_scope_cex :
    (token_endpoint dbA "client_credentials" "client-1" "secret-1" none none none none (some "") 0 "t").2
      = .ok { access_token := create_access_token "client-1" (pySplit "video:transcribe") 0,
              token_type := "Bearer", expires_in := Config.JWT_EXPIRES_MINUTES * 60,
              refresh_token := none, scope := "video:transcribe" } ∧
    ("video:transcribe" : String) ≠ "" := ⟨by rfl, by decide⟩

/-- C9 (amended): for an authenticated client the `client_credentials`
grant places no restriction on the requested scope: any non-empty supplied
scope string `s` is granted verbatim (regardless of the client's registered
scope), while an absent or empty scope yields the first configured default
scope `video:transcribe`. -/
theorem client_credentials_scope_unrestricted (db : DB) (client : Client) (cid cs : String)
    (now : Nat) (ft : String) (hc : db.get_client cid = some client)
    (hs : client.client_secret = cs) :
    (∀ s : String, s ≠ "" →
      token_endpoint db "client_credentials" cid cs none none none none (some s) now ft
        = (db, .ok { access_token := create_access_token cid (pySplit s) now,
                     token_type := "Bearer", expires_in := Config.JWT_EXPIRES_MINUTES * 60,
                     refresh_token := none, scope := s })) ∧
    (∀ s0 : Option String, pyTruthy s0 = false →
      token_endpoint db "client_credentials" cid cs none none none none s0 now ft
        = (db, .ok { access_token := create_access_token cid (pySplit "video:transcribe") now,
                     token_type := "Bearer", expires_in := Config.JWT_EXPIRES_MINUTES * 60,
                     refresh_token := none, scope := "video:transcribe" })) := by
  constructor
  · intro s hs2
    simp [token_endpoint, hc, hs, _handle_client_credentials_grant, pyTruthy, hs2]
  · intro s0 hs0
    simp [token_endpoint, hc, hs, _handle_client_credentials_grant, hs0]
    exact ⟨by rfl, by rfl⟩

/-- C9 witness: `client-1` has registered scope `videos:read`, yet the
grant returns the requested scope `admin:everything`; with no scope supplied
it returns `video:transcribe`. -/
theorem client_credentials_scope_unrestricted_witness :
    token_endpoint dbA "client_credentials" "client-1" "secret-1" none none none none
        (some "admin:everything") 0 "t"
      = (dbA, .ok { access_token := create_access_token "client-1" (pySplit "admin:everything") 0,
                    token_type := "Bearer", expires_in := Config.JWT_EXPIRES_MINUTES * 60,
                    refresh_token := none, scope := "admin:everything" }) ∧
    ¬ "admin:everything" ∈ pySplit clientA.scope ∧
    token_endpoint dbA "client_credentials" "client-1" "secret-1" none none none none none 0 "t"
      = (dbA, .ok { access_token := create_access_token "client-1" (pySplit "video:transcribe") 0,
                    token_type := "Bearer", expires_in := Config.JWT_EXPIRES_MINUTES * 60,
                    refresh_token := none, scope := "video:transcribe" }) := by
  have h := client_credentials_scope_unrestricted dbA clientA "client-1" "secret-1" 0 "t"
      (by rfl) rfl
  exact ⟨h.1 "admin:everything" (by decide), by decide, h.2 none rfl⟩

/-- C10: the `authorization_code`-grant exchange is independent of the
`redirect_uri` parameter: for any two values of that parameter (absent or
arbitrary strings), the entire result — store state, success or failure, and
granted scope — is identical; the stored code's `redirect_uri` binding is
never consulted. -/
theorem auth_code_grant_ignores_redirect_uri (db : DB) (cid cs : String)
    (code code_verifier : Option String) (ru1 ru2 : Option String) (now : Nat) (ft : String) :
    token_endpoint db "authorization_code" cid cs code ru1 code_verifier none none now ft =
    token_endpoint db "authorization_code" cid cs code ru2 code_verifier none none now ft := rfl
